import Mathlib

/-!
Shallow embedding of the workflow-orchestration core of pal-mcp-server
(src/tools/multi_model_workflow.py and src/tools/specialized_agents.py),
together with theorems settling the frozen claims about it.

Modelling conventions:
* The external model-provider layer is opaque.  An `Env` packages provider
  resolution (`ModelProviderRegistry.get_provider_for_model` succeeding or
  not) and the provider round-trip `generate_response`, which either
  returns text or fails; a Python exception is embedded as `Except.error`
  carrying the exception's rendered message.
* Python dicts for tasks are embedded as a `Task` structure of optional
  fields (`task.get(k)` is field access, `task[k]` on a missing key is a
  KeyError, embedded as an error value).  Values that the source only ever
  renders into prompt text (ints such as `variations`, nested dicts such
  as `player_data` that the source passes through `json.dumps`) are
  carried as their rendered text.
* The shared workflow context dict is an association list `Ctx`.  Because
  Python passes it by reference and steps could in principle mutate it,
  every step and workflow returns the context alongside its result, so
  that (non-)mutation is expressible; the source functions contain no
  write to the context, and each embedded step returns it unchanged.
* `datetime.now()` inside `_get_timestamp` is embedded by passing the
  clock reading explicitly as a `now : String` argument.
* Uncaught Python exceptions are embedded as `Except.error` propagating
  outward; `try/except` blocks are embedded as matches on that value.
-/

namespace PalMcp

/-- Rendered message of a Python `KeyError` for a missing dict key
(Python renders the quoted key; the exact rendering is irrelevant to the
claims, only that it is an error). -/
def keyErrorMsg (k : String) : String := "KeyError: " ++ k

/-- Rendered message of the `StopIteration` raised by `next()` on an
exhausted generator, as in `next(task for task in tasks if ...)`. -/
def stopIterationMsg : String := "StopIteration"

/-- One task dict submitted to a workflow: the keys that
multi_model_workflow.py ever reads, each optional since Python dicts are
open.  `variations`, `player_data`, `metrics` and `requirements` are
carried as their rendered text (see module comment). -/
structure Task where
  type : Option String := none
  agent : Option String := none
  name : Option String := none
  prompt : Option String := none
  files : Option (List String) := none
  thinking_mode : Option String := none
  theme : Option String := none
  difficulty : Option String := none
  variations : Option String := none
  player_data : Option String := none
  current_difficulty : Option String := none
  metrics : Option String := none
  tone : Option String := none
  length : Option String := none
  assets : Option (List String) := none
  target_size : Option String := none
  requirements : Option String := none

/-- The shared workflow context dict (string keys; values carried as
rendered text, see module comment). -/
abbrev Ctx : Type := List (String × String)

/-- Python `context.get(k, d)`. -/
def ctxGet (c : Ctx) (k d : String) : String := ((List.lookup k c).getD d)

/-- Python `k in context`. -/
def ctxHas (c : Ctx) (k : String) : Bool := (List.lookup k c).isSome

/-- The opaque provider layer: `resolve` is whether
`ModelProviderRegistry.get_provider_for_model(model)` returns a provider,
and `gen model content thinking_mode` is that provider's
`generate_response`, returning the content text or the rendered message
of the raised exception. -/
structure Env where
  resolve : String → Bool
  gen : String → String → String → Except String String

/-- The argument dict handed to an agent's `execute` (the keys read by
any agent in specialized_agents.py). -/
structure AgentArgs where
  prompt : Option String := none
  files : Option (List String) := none
  model : Option String := none
  thinking_mode : Option String := none
  models : Option (List String) := none
  theme : Option String := none
  difficulty : Option String := none
  variations : Option String := none
  player_data : Option String := none
  current_difficulty : Option String := none
  metrics : Option String := none
  tone : Option String := none
  length : Option String := none
  assets : Option (List String) := none
  target_size : Option String := none
  requirements : Option String := none

/-- The fixed agent-type → base-model dict of `_select_model`
(multi_model_workflow.py lines 569-578). -/
def model_map : List (String × String) :=
  [("architecture", "gemini-pro"),
   ("implementation", "gemini-flash"),
   ("optimization", "ollama"),
   ("content", "claude-haiku"),
   ("procedural_puzzle", "gemini-pro"),
   ("dynamic_difficulty", "gemini-pro"),
   ("narrative", "claude-haiku"),
   ("asset_optimization", "ollama")]

/-- `_select_model` (multi_model_workflow.py lines 567-604). -/
def select_model (agent_type strategy : String) : String :=
  let base_model := (List.lookup agent_type model_map).getD "gemini-flash"
  if strategy == "cost_optimized" then
    if base_model == "gemini-pro" then "gemini-flash"
    else if base_model == "claude-haiku" then "gemini-flash"
    else base_model
  else if strategy == "performance_optimized" then
    if base_model == "gemini-flash" then "gemini-pro"
    else if base_model == "ollama" then "gemini-pro"
    else base_model
  else if strategy == "balanced" then
    if base_model == "gemini-pro" then "gemini-flash"
    else if base_model == "ollama" then "gemini-flash"
    else base_model
  else base_model

/-- The per-step block of `_generate_workflow_report`: the loop
`for i, (step_name, step_result) in enumerate(steps, 1)`. -/
def reportSteps : List (String × String) → Nat → String
  | [], _ => ""
  | (step_name, step_result) :: rest, i =>
      "## Step " ++ toString i ++ ": " ++ step_name ++ "\n\n" ++
      step_result ++ "\n\n" ++
      "---\n\n" ++
      reportSteps rest (i + 1)

/-- `_get_timestamp` (multi_model_workflow.py lines 633-636): reads the
wall clock; the clock reading is the explicit argument `now`. -/
def get_timestamp (now : String) : String := now

/-- `_generate_workflow_report` (multi_model_workflow.py lines 607-630);
`now` is the wall-clock reading consumed by `_get_timestamp`. -/
def generate_workflow_report (now workflow_name : String)
    (steps : List (String × String)) : String :=
  "# " ++ workflow_name ++ " Workflow Report\n\n" ++
  ("**Generated:** " ++ get_timestamp now ++ "\n") ++
  ("**Total Steps:** " ++ toString steps.length ++ "\n\n") ++
  reportSteps steps 1 ++
  "## Workflow Summary\n\n" ++
  ("- **Workflow Type:** " ++ workflow_name ++ "\n") ++
  ("- **Steps Completed:** " ++ toString steps.length ++ "\n") ++
  "- **Status:** Completed Successfully\n\n" ++
  "## Recommendations\n\n" ++
  "1. Review each step\x27s output for quality and completeness\n" ++
  "2. Implement recommendations in order of priority\n" ++
  "3. Test changes thoroughly before deployment\n" ++
  "4. Monitor performance and user feedback\n\n"

/-- Python `', '.join(files) if files else 'None provided'`, as used in the
file lists of the prompt builders. -/
def filesOr (files : List String) : String :=
  if files.isEmpty then "None provided" else String.intercalate ", " files

/-- `_build_architecture_context` (specialized_agents.py lines 334-359). -/
def build_architecture_context (prompt : String) (files : List String) : String :=
  "\n🏗️ SYSTEM ARCHITECTURE ANALYSIS\n\n**Task:** " ++ prompt ++
  "\n\n**Context:** Analyze the provided files and design system architecture.\n\n**Requirements:**\n- Focus on scalability, maintainability, and performance\n- Consider security implications\n- Provide clear technical recommendations\n- Use architectural patterns where appropriate\n\n**Files to analyze:** " ++
  filesOr files ++
  "\n\n**Output Format:**\n1. Architecture Overview\n2. Component Design\n3. Data Flow\n4. Technology Recommendations\n5. Implementation Phases\n\nPlease provide a comprehensive architecture analysis.\n"

/-- `_build_implementation_context` (specialized_agents.py lines 361-385). -/
def build_implementation_context (prompt : String) (files : List String) : String :=
  "\n💻 IMPLEMENTATION TASK\n\n**Task:** " ++ prompt ++
  "\n\n**Context:** Implement the specified feature or fix.\n\n**Requirements:**\n- Follow existing code patterns\n- Maintain code quality standards\n- Include necessary error handling\n- Add appropriate comments\n\n**Files to reference:** " ++
  filesOr files ++
  "\n\n**Output Format:**\n- Code implementation\n- Explanation of approach\n- Any assumptions made\n- Testing recommendations\n\nPlease provide the implementation.\n"

/-- `_build_optimization_context` (specialized_agents.py lines 387-411). -/
def build_optimization_context (prompt : String) (files : List String) : String :=
  "\n⚡ PERFORMANCE OPTIMIZATION ANALYSIS\n\n**Task:** " ++ prompt ++
  "\n\n**Context:** Analyze performance issues and provide optimization recommendations.\n\n**Requirements:**\n- Identify bottlenecks and inefficiencies\n- Suggest specific improvements\n- Consider memory usage, CPU usage, and I/O\n- Provide measurable optimization targets\n\n**Files to analyze:** " ++
  filesOr files ++
  "\n\n**Output Format:**\n1. Performance Issues Identified\n2. Optimization Recommendations\n3. Expected Performance Gains\n4. Implementation Priority\n\nPlease provide detailed optimization analysis.\n"

/-- `_build_content_context` (specialized_agents.py lines 413-437). -/
def build_content_context (prompt : String) (files : List String) : String :=
  "\n📝 CONTENT GENERATION\n\n**Task:** " ++ prompt ++
  "\n\n**Context:** Create engaging, well-structured content.\n\n**Requirements:**\n- Use clear, professional language\n- Structure content logically\n- Include relevant examples where appropriate\n- Maintain consistent tone and style\n\n**Reference materials:** " ++
  filesOr files ++
  "\n\n**Output Format:**\n- Well-structured content\n- Clear explanations\n- Appropriate formatting\n- Actionable insights\n\nPlease generate the requested content.\n"

/-- `_build_consensus_context` (specialized_agents.py lines 439-466). -/
def build_consensus_context (prompt : String) (files : List String)
    (models : List String) : String :=
  "\n🤝 MULTI-MODEL CONSENSUS ANALYSIS\n\n**Task:** " ++ prompt ++
  "\n\n**Models participating:** " ++ String.intercalate ", " models ++
  "\n\n**Context:** Multiple AI models will analyze this task from different perspectives.\n\n**Requirements:**\n- Each model provides unique insights\n- Models should challenge and build on each other\x27s ideas\n- Focus on comprehensive analysis\n- Reach consensus on key recommendations\n\n**Files to analyze:** " ++
  filesOr files ++
  "\n\n**Output Format:**\n1. Model 1 Analysis\n2. Model 2 Analysis  \n3. Model 3 Analysis\n4. Consensus Recommendations\n5. Action Items\n\nPlease provide comprehensive consensus analysis.\n"

/-- `_build_puzzle_generation_context` (specialized_agents.py lines
468-495); `variation_count` carried as rendered text. -/
def build_puzzle_generation_context (prompt theme difficulty variation_count : String) : String :=
  "\n🧩 PROCEDURAL PUZZLE GENERATION\n\n**Theme:** " ++ theme ++
  "\n**Difficulty:** " ++ difficulty ++
  "\n**Variations:** " ++ variation_count ++
  "\n\n**Task:** " ++ prompt ++
  "\n\n**Context:** Generate multiple puzzle variations for a horror-themed game.\n\n**Requirements:**\n- Each variation should be unique but thematically consistent\n- Maintain appropriate difficulty level\n- Include clear solution paths\n- Support replayability\n\n**Output Format:**\nFor each variation:\n1. Puzzle Description\n2. Solution Logic\n3. Difficulty Assessment\n4. Replay Value\n\nPlease generate " ++
  variation_count ++ " puzzle variations.\n"

/-- `_build_difficulty_context` (specialized_agents.py lines 497-521);
`player_data` and `metrics` are carried as the text `json.dumps` renders
them to. -/
def build_difficulty_context (player_data current_difficulty metrics : String) : String :=
  "\n🎯 DYNAMIC DIFFICULTY ADJUSTMENT\n\n**Current Difficulty:** " ++ current_difficulty ++
  "\n**Player Performance:** " ++ player_data ++
  "\n**Metrics:** " ++ metrics ++
  "\n\n**Context:** Analyze player performance and suggest difficulty adjustments.\n\n**Requirements:**\n- Consider player skill progression\n- Balance challenge vs frustration\n- Maintain engagement\n- Provide specific adjustment recommendations\n\n**Output Format:**\n1. Performance Analysis\n2. Difficulty Assessment\n3. Adjustment Recommendations\n4. Implementation Strategy\n\nPlease provide difficulty adjustment recommendations.\n"

/-- `_build_narrative_context` (specialized_agents.py lines 523-549). -/
def build_narrative_context (story_prompt theme tone length : String) : String :=
  "\n📖 HORROR NARRATIVE GENERATION\n\n**Theme:** " ++ theme ++
  "\n**Tone:** " ++ tone ++
  "\n**Length:** " ++ length ++
  "\n\n**Task:** " ++ story_prompt ++
  "\n\n**Context:** Create engaging horror narrative content for VHS aesthetic game.\n\n**Requirements:**\n- Maintain consistent horror atmosphere\n- Use appropriate VHS-era references\n- Build tension and suspense\n- Support multiple narrative paths\n\n**Output Format:**\n- Narrative text\n- Scene descriptions\n- Character development\n- Plot progression\n\nPlease generate compelling horror narrative content.\n"

/-- `_build_asset_context` (specialized_agents.py lines 551-575);
`requirements` carried as its `json.dumps` rendering. -/
def build_asset_context (asset_paths : List String) (target_size requirements : String) : String :=
  "\n🎨 VHS ASSET OPTIMIZATION\n\n**Assets:** " ++ String.intercalate ", " asset_paths ++
  "\n**Target Size:** " ++ target_size ++
  "\n**Requirements:** " ++ requirements ++
  "\n\n**Context:** Optimize assets for VHS aesthetic while maintaining performance.\n\n**Requirements:**\n- Preserve VHS aesthetic qualities\n- Optimize for target file size\n- Maintain visual quality\n- Consider loading performance\n\n**Output Format:**\n1. Current Asset Analysis\n2. Optimization Recommendations\n3. Expected Results\n4. Implementation Steps\n\nPlease provide detailed asset optimization analysis.\n"

/-- `_execute_with_model` (specialized_agents.py lines 589-611): resolves
a provider for `model` and performs the round-trip; any exception inside
the `try` (including the not-available error raised there) is caught and
re-raised as `Failed to execute with model ...`. -/
def execute_with_model (env : Env) (model context thinking_mode : String) :
    Except String String :=
  if env.resolve model then
    match env.gen model context thinking_mode with
    | .ok content => .ok content
    | .error e => .error ("Failed to execute with model " ++ model ++ ": " ++ e)
  else
    .error ("Failed to execute with model " ++ model ++ ": Model " ++ model ++ " not available")

/-- The per-model collection loop of `_execute_consensus_workflow`
(specialized_agents.py lines 622-632): unresolvable models are skipped;
a raised provider exception aborts the loop (it is not caught inside the
loop).  `models_all` is the full list interpolated into the shared
consensus prompt; `pending` the models still to visit. -/
def consensus_loop (env : Env) (prompt : String) (files : List String)
    (models_all : List String) (thinking_mode : String) :
    (pending : List String) → Except String (List (String × String))
  | [] => .ok []
  | model :: rest =>
    if env.resolve model then
      match env.gen model (build_consensus_context prompt files models_all) thinking_mode with
      | .ok content =>
        (consensus_loop env prompt files models_all thinking_mode rest).map
          (fun rs => (model, content) :: rs)
      | .error e => .error e
    else consensus_loop env prompt files models_all thinking_mode rest

/-- `_analyze_consensus` (specialized_agents.py lines 644-660). -/
def analyze_consensus (responses : List (String × String)) : String :=
  "## CONSENSUS ANALYSIS\n\n" ++
  String.join (responses.map (fun r =>
    "### " ++ r.1.toUpper ++ " Analysis:\n" ++ r.2 ++ "\n\n")) ++
  "## SYNTHESIS AND RECOMMENDATIONS\n\n" ++
  "Based on the multiple model analyses, here are the key consensus points:\n\n" ++
  "1. **Common Recommendations**\n" ++
  "2. **Areas of Agreement**\n" ++
  "3. **Divergent Opinions**\n" ++
  "4. **Final Recommendations**\n\n"

/-- `_execute_consensus_workflow` (specialized_agents.py lines 614-641):
collects responses, then renders them; any exception escaping the body is
caught and re-raised as `Consensus workflow failed: ...`. -/
def execute_consensus_workflow (env : Env) (prompt : String) (files : List String)
    (models : List String) (thinking_mode : String) : Except String String :=
  match consensus_loop env prompt files models thinking_mode models with
  | .ok responses => .ok (analyze_consensus responses)
  | .error e => .error ("Consensus workflow failed: " ++ e)

/-- `ArchitectureAgent.execute` (specialized_agents.py lines 105-118). -/
def architecture_agent_execute (env : Env) (args : AgentArgs) : Except String String :=
  match args.prompt with
  | none => .error (keyErrorMsg "prompt")
  | some prompt =>
    let files := args.files.getD []
    let model := args.model.getD "gemini-pro"
    let thinking_mode := args.thinking_mode.getD "high"
    execute_with_model env model (build_architecture_context prompt files) thinking_mode

/-- `ImplementationAgent.execute` (specialized_agents.py lines 132-145). -/
def implementation_agent_execute (env : Env) (args : AgentArgs) : Except String String :=
  match args.prompt with
  | none => .error (keyErrorMsg "prompt")
  | some prompt =>
    let files := args.files.getD []
    let model := args.model.getD "gemini-flash"
    let thinking_mode := args.thinking_mode.getD "medium"
    execute_with_model env model (build_implementation_context prompt files) thinking_mode

/-- `OptimizationAgent.execute` (specialized_agents.py lines 159-172). -/
def optimization_agent_execute (env : Env) (args : AgentArgs) : Except String String :=
  match args.prompt with
  | none => .error (keyErrorMsg "prompt")
  | some prompt =>
    let files := args.files.getD []
    let model := args.model.getD "ollama"
    let thinking_mode := args.thinking_mode.getD "medium"
    execute_with_model env model (build_optimization_context prompt files) thinking_mode

/-- `ContentAgent.execute` (specialized_agents.py lines 186-199). -/
def content_agent_execute (env : Env) (args : AgentArgs) : Except String String :=
  match args.prompt with
  | none => .error (keyErrorMsg "prompt")
  | some prompt =>
    let files := args.files.getD []
    let model := args.model.getD "claude-haiku"
    let thinking_mode := args.thinking_mode.getD "medium"
    execute_with_model env model (build_content_context prompt files) thinking_mode

/-- `ConsensusAgent.execute` (specialized_agents.py lines 214-224). -/
def consensus_agent_execute (env : Env) (args : AgentArgs) : Except String String :=
  match args.prompt with
  | none => .error (keyErrorMsg "prompt")
  | some prompt =>
    let files := args.files.getD []
    let models := args.models.getD ["gemini-pro", "gpt-5", "claude-haiku"]
    let thinking_mode := args.thinking_mode.getD "high"
    execute_consensus_workflow env prompt files models thinking_mode

/-- `ProceduralPuzzleAgent.execute` (specialized_agents.py lines 238-251);
note it dispatches on `self.preferred_model` and `self.thinking_mode`,
ignoring any `model`/`thinking_mode` entries of the argument dict. -/
def procedural_puzzle_agent_execute (env : Env) (args : AgentArgs) : Except String String :=
  match args.prompt with
  | none => .error (keyErrorMsg "prompt")
  | some prompt =>
    let theme := args.theme.getD "horror"
    let difficulty := args.difficulty.getD "medium"
    let variation_count := args.variations.getD "3"
    execute_with_model env "gemini-pro"
      (build_puzzle_generation_context prompt theme difficulty variation_count) "high"

/-- `DynamicDifficultyAgent.execute` (specialized_agents.py lines
265-277); `player_data` is the required key. -/
def dynamic_difficulty_agent_execute (env : Env) (args : AgentArgs) : Except String String :=
  match args.player_data with
  | none => .error (keyErrorMsg "player_data")
  | some player_data =>
    let current_difficulty := args.current_difficulty.getD "medium"
    let performance_metrics := args.metrics.getD "\x7b\x7d"
    execute_with_model env "gemini-pro"
      (build_difficulty_context player_data current_difficulty performance_metrics) "medium"

/-- `NarrativeAgent.execute` (specialized_agents.py lines 291-304). -/
def narrative_agent_execute (env : Env) (args : AgentArgs) : Except String String :=
  match args.prompt with
  | none => .error (keyErrorMsg "prompt")
  | some story_prompt =>
    let theme := args.theme.getD "slasher"
    let tone := args.tone.getD "creepy"
    let length := args.length.getD "medium"
    execute_with_model env "claude-haiku"
      (build_narrative_context story_prompt theme tone length) "high"

/-- `AssetOptimizationAgent.execute` (specialized_agents.py lines
318-330); `assets` is the required key. -/
def asset_optimization_agent_execute (env : Env) (args : AgentArgs) : Except String String :=
  match args.assets with
  | none => .error (keyErrorMsg "assets")
  | some asset_paths =>
    let target_size := args.target_size.getD "512KB"
    let aesthetic_requirements := args.requirements.getD "\x7b\x7d"
    execute_with_model env "ollama"
      (build_asset_context asset_paths target_size aesthetic_requirements) "medium"

/-- The agent registry keys of `WorkflowOrchestrator.__init__`
(multi_model_workflow.py lines 41-51). -/
def agentNames : List String :=
  ["architecture", "implementation", "optimization", "content", "consensus",
   "procedural_puzzle", "dynamic_difficulty", "narrative", "asset_optimization"]

/-- Dispatch `self.agents[name].execute(args)` for a registered agent
name (multi_model_workflow.py line 532/563 together with the `execute`
methods above).  Only called with names in `agentNames`. -/
def agent_execute (env : Env) (name : String) (args : AgentArgs) : Except String String :=
  if name == "architecture" then architecture_agent_execute env args
  else if name == "implementation" then implementation_agent_execute env args
  else if name == "optimization" then optimization_agent_execute env args
  else if name == "content" then content_agent_execute env args
  else if name == "consensus" then consensus_agent_execute env args
  else if name == "procedural_puzzle" then procedural_puzzle_agent_execute env args
  else if name == "dynamic_difficulty" then dynamic_difficulty_agent_execute env args
  else if name == "narrative" then narrative_agent_execute env args
  else asset_optimization_agent_execute env args

/-- `_execute_architecture_step` (multi_model_workflow.py lines 273-285):
executes the first task of type `architecture` via the architecture
agent.  The source step performs no write to the shared context, which is
therefore returned unchanged. -/
def execute_architecture_step (env : Env) (tasks : List Task) (context : Ctx)
    (model_strategy : String) : Except String String × Ctx :=
  (match tasks.find? (fun task => task.type == some "architecture") with
   | none => .error stopIterationMsg
   | some arch_task =>
     match arch_task.prompt with
     | none => .error (keyErrorMsg "prompt")
     | some prompt =>
       architecture_agent_execute env
         { prompt := some prompt,
           files := some (arch_task.files.getD []),
           model := some (select_model "architecture" model_strategy),
           thinking_mode := some "high" },
   context)

/-- One iteration of `_execute_implementation_step`: the agent call for a
single implementation task. -/
def impl_task_exec (env : Env) (model_strategy : String) (task : Task) :
    Except String String :=
  match task.prompt with
  | none => .error (keyErrorMsg "prompt")
  | some prompt =>
    implementation_agent_execute env
      { prompt := some prompt,
        files := some (task.files.getD []),
        model := some (select_model "implementation" model_strategy),
        thinking_mode := some "medium" }

/-- The `for task in impl_tasks` loop of `_execute_implementation_step`:
results are collected in order and a raised exception propagates. -/
def impl_loop (env : Env) (model_strategy : String) :
    List Task → Except String (List String)
  | [] => .ok []
  | task :: rest =>
    match impl_task_exec env model_strategy task with
    | .error e => .error e
    | .ok r =>
      match impl_loop env model_strategy rest with
      | .error e => .error e
      | .ok rs => .ok (r :: rs)

/-- `_execute_implementation_step` (multi_model_workflow.py lines
288-303): executes every task of type `implementation` in list order and
joins the results with blank lines. -/
def execute_implementation_step (env : Env) (tasks : List Task) (context : Ctx)
    (model_strategy : String) : Except String String × Ctx :=
  ((impl_loop env model_strategy
      (tasks.filter (fun task => task.type == some "implementation"))).map
     (String.intercalate "\n\n"),
   context)

/-- `_execute_content_step` (multi_model_workflow.py lines 306-318). -/
def execute_content_step (env : Env) (tasks : List Task) (context : Ctx)
    (model_strategy : String) : Except String String × Ctx :=
  (match tasks.find? (fun task => task.type == some "content") with
   | none => .error stopIterationMsg
   | some content_task =>
     match content_task.prompt with
     | none => .error (keyErrorMsg "prompt")
     | some prompt =>
       content_agent_execute env
         { prompt := some prompt,
           files := some (content_task.files.getD []),
           model := some (select_model "content" model_strategy),
           thinking_mode := some "medium" },
   context)

/-- `_execute_optimization_step` (multi_model_workflow.py lines 321-333). -/
def execute_optimization_step (env : Env) (tasks : List Task) (context : Ctx)
    (model_strategy : String) : Except String String × Ctx :=
  (match tasks.find? (fun task => task.type == some "optimization") with
   | none => .error stopIterationMsg
   | some opt_task =>
     match opt_task.prompt with
     | none => .error (keyErrorMsg "prompt")
     | some prompt =>
       optimization_agent_execute env
         { prompt := some prompt,
           files := some (opt_task.files.getD []),
           model := some (select_model "optimization" model_strategy),
           thinking_mode := some "medium" },
   context)

/-- `_analyze_puzzle_theme` (multi_model_workflow.py lines 336-347). -/
def analyze_puzzle_theme (env : Env) (tasks : List Task) (context : Ctx) :
    Except String String × Ctx :=
  (match tasks.find? (fun task => task.type == some "theme_analysis") with
   | none => .error stopIterationMsg
   | some theme_task =>
     match theme_task.prompt with
     | none => .error (keyErrorMsg "prompt")
     | some prompt =>
       content_agent_execute env
         { prompt := some prompt,
           model := some "claude-haiku",
           thinking_mode := some "medium" },
   context)

/-- `_generate_puzzle_variations` (multi_model_workflow.py lines 350-364);
the step reads `theme`, `difficulty` and `variations` from the shared
context. -/
def generate_puzzle_variations (env : Env) (tasks : List Task) (context : Ctx)
    (model_strategy : String) : Except String String × Ctx :=
  (match tasks.find? (fun task => task.type == some "procedural_generation") with
   | none => .error stopIterationMsg
   | some gen_task =>
     match gen_task.prompt with
     | none => .error (keyErrorMsg "prompt")
     | some prompt =>
       procedural_puzzle_agent_execute env
         { prompt := some prompt,
           theme := some (ctxGet context "theme" "horror"),
           difficulty := some (ctxGet context "difficulty" "medium"),
           variations := some (ctxGet context "variations" "3"),
           model := some (select_model "procedural_puzzle" model_strategy),
           thinking_mode := some "high" },
   context)

/-- `_balance_difficulty` (multi_model_workflow.py lines 367-380); note
the argument dict is built from the context only, without reading the
found task beyond its existence. -/
def balance_difficulty (env : Env) (tasks : List Task) (context : Ctx)
    (model_strategy : String) : Except String String × Ctx :=
  (match tasks.find? (fun task => task.type == some "difficulty_balancing") with
   | none => .error stopIterationMsg
   | some _diff_task =>
     dynamic_difficulty_agent_execute env
       { player_data := some (ctxGet context "player_data" "\x7b\x7d"),
         current_difficulty := some (ctxGet context "current_difficulty" "medium"),
         metrics := some (ctxGet context "metrics" "\x7b\x7d"),
         model := some (select_model "dynamic_difficulty" model_strategy),
         thinking_mode := some "medium" },
   context)

/-- `_integrate_narrative` (multi_model_workflow.py lines 383-397). -/
def integrate_narrative (env : Env) (tasks : List Task) (context : Ctx)
    (model_strategy : String) : Except String String × Ctx :=
  (match tasks.find? (fun task => task.type == some "narrative_integration") with
   | none => .error stopIterationMsg
   | some narrative_task =>
     match narrative_task.prompt with
     | none => .error (keyErrorMsg "prompt")
     | some prompt =>
       narrative_agent_execute env
         { prompt := some prompt,
           theme := some (ctxGet context "theme" "slasher"),
           tone := some (ctxGet context "tone" "creepy"),
           length := some (ctxGet context "length" "medium"),
           model := some (select_model "narrative" model_strategy),
           thinking_mode := some "high" },
   context)

/-- `_develop_story` (multi_model_workflow.py lines 400-414). -/
def develop_story (env : Env) (tasks : List Task) (context : Ctx)
    (model_strategy : String) : Except String String × Ctx :=
  (match tasks.find? (fun task => task.type == some "story_development") with
   | none => .error stopIterationMsg
   | some story_task =>
     match story_task.prompt with
     | none => .error (keyErrorMsg "prompt")
     | some prompt =>
       narrative_agent_execute env
         { prompt := some prompt,
           theme := some (ctxGet context "theme" "cosmic_horror"),
           tone := some (ctxGet context "tone" "atmospheric"),
           length := some (ctxGet context "length" "long"),
           model := some (select_model "narrative" model_strategy),
           thinking_mode := some "high" },
   context)

/-- `_create_characters` (multi_model_workflow.py lines 417-428). -/
def create_characters (env : Env) (tasks : List Task) (context : Ctx)
    (model_strategy : String) : Except String String × Ctx :=
  (match tasks.find? (fun task => task.type == some "character_creation") with
   | none => .error stopIterationMsg
   | some char_task =>
     match char_task.prompt with
     | none => .error (keyErrorMsg "prompt")
     | some prompt =>
       content_agent_execute env
         { prompt := some prompt,
           model := some (select_model "content" model_strategy),
           thinking_mode := some "medium" },
   context)

/-- `_write_scenes` (multi_model_workflow.py lines 431-445). -/
def write_scenes (env : Env) (tasks : List Task) (context : Ctx)
    (model_strategy : String) : Except String String × Ctx :=
  (match tasks.find? (fun task => task.type == some "scene_writing") with
   | none => .error stopIterationMsg
   | some scene_task =>
     match scene_task.prompt with
     | none => .error (keyErrorMsg "prompt")
     | some prompt =>
       narrative_agent_execute env
         { prompt := some prompt,
           theme := some (ctxGet context "theme" "slasher"),
           tone := some (ctxGet context "tone" "tense"),
           length := some (ctxGet context "length" "medium"),
           model := some (select_model "narrative" model_strategy),
           thinking_mode := some "high" },
   context)

/-- `_generate_assets` (multi_model_workflow.py lines 448-461); reads the
asset list from the found task and the rest from the context, and never
touches a `prompt` key. -/
def generate_assets (env : Env) (tasks : List Task) (context : Ctx)
    (model_strategy : String) : Except String String × Ctx :=
  (match tasks.find? (fun task => task.type == some "asset_generation") with
   | none => .error stopIterationMsg
   | some asset_task =>
     asset_optimization_agent_execute env
       { assets := some (asset_task.assets.getD []),
         target_size := some (ctxGet context "target_size" "512KB"),
         requirements := some (ctxGet context "requirements" "\x7b\x7d"),
         model := some (select_model "asset_optimization" model_strategy),
         thinking_mode := some "medium" },
   context)

/-- `_analyze_performance` (multi_model_workflow.py lines 464-476). -/
def analyze_performance (env : Env) (tasks : List Task) (context : Ctx)
    (model_strategy : String) : Except String String × Ctx :=
  (match tasks.find? (fun task => task.type == some "performance_analysis") with
   | none => .error stopIterationMsg
   | some perf_task =>
     match perf_task.prompt with
     | none => .error (keyErrorMsg "prompt")
     | some prompt =>
       optimization_agent_execute env
         { prompt := some prompt,
           files := some (perf_task.files.getD []),
           model := some (select_model "optimization" model_strategy),
           thinking_mode := some "medium" },
   context)

/-- `_identify_bottlenecks` (multi_model_workflow.py lines 479-491). -/
def identify_bottlenecks (env : Env) (tasks : List Task) (context : Ctx)
    (model_strategy : String) : Except String String × Ctx :=
  (match tasks.find? (fun task => task.type == some "bottleneck_identification") with
   | none => .error stopIterationMsg
   | some bottleneck_task =>
     match bottleneck_task.prompt with
     | none => .error (keyErrorMsg "prompt")
     | some prompt =>
       optimization_agent_execute env
         { prompt := some prompt,
           files := some (bottleneck_task.files.getD []),
           model := some (select_model "optimization" model_strategy),
           thinking_mode := some "medium" },
   context)

/-- `_generate_optimizations` (multi_model_workflow.py lines 494-506). -/
def generate_optimizations (env : Env) (tasks : List Task) (context : Ctx)
    (model_strategy : String) : Except String String × Ctx :=
  (match tasks.find? (fun task => task.type == some "optimization_recommendations") with
   | none => .error stopIterationMsg
   | some opt_task =>
     match opt_task.prompt with
     | none => .error (keyErrorMsg "prompt")
     | some prompt =>
       optimization_agent_execute env
         { prompt := some prompt,
           files := some (opt_task.files.getD []),
           model := some (select_model "optimization" model_strategy),
           thinking_mode := some "medium" },
   context)

/-- `_create_implementation_plan` (multi_model_workflow.py lines 509-521);
dispatches to the architecture agent. -/
def create_implementation_plan (env : Env) (tasks : List Task) (context : Ctx)
    (model_strategy : String) : Except String String × Ctx :=
  (match tasks.find? (fun task => task.type == some "implementation_plan") with
   | none => .error stopIterationMsg
   | some plan_task =>
     match plan_task.prompt with
     | none => .error (keyErrorMsg "prompt")
     | some prompt =>
       architecture_agent_execute env
         { prompt := some prompt,
           files := some (plan_task.files.getD []),
           model := some (select_model "architecture" model_strategy),
           thinking_mode := some "high" },
   context)

/-- The body of `_execute_single_task` (multi_model_workflow.py lines
524-564): agent lookup, argument-dict assembly and the agent call.  The
source function receives the shared context but neither reads nor writes
it. -/
def single_task_result (env : Env) (task : Task) (model_strategy : String) :
    Except String String :=
  let task_type := task.type
  let agent_name := match task.agent with
    | some a => some a
    | none => task_type
  match agent_name with
  | none => .error "Unknown agent: None"
  | some name =>
    if agentNames.contains name then
      match task.prompt with
      | none => .error (keyErrorMsg "prompt")
      | some prompt =>
        let task_args : AgentArgs :=
          { prompt := some prompt,
            model := some (select_model name model_strategy),
            thinking_mode := some (task.thinking_mode.getD "medium") }
        let task_args :=
          if name == "procedural_puzzle" then
            { task_args with
              theme := some (task.theme.getD "horror"),
              difficulty := some (task.difficulty.getD "medium"),
              variations := some (task.variations.getD "3") }
          else if name == "dynamic_difficulty" then
            { task_args with
              player_data := some (task.player_data.getD "\x7b\x7d"),
              current_difficulty := some (task.current_difficulty.getD "medium"),
              metrics := some (task.metrics.getD "\x7b\x7d") }
          else if name == "narrative" then
            { task_args with
              theme := some (task.theme.getD "slasher"),
              tone := some (task.tone.getD "creepy"),
              length := some (task.length.getD "medium") }
          else if name == "asset_optimization" then
            { task_args with
              assets := some (task.assets.getD []),
              target_size := some (task.target_size.getD "512KB"),
              requirements := some (task.requirements.getD "\x7b\x7d") }
          else task_args
        agent_execute env name task_args
    else .error ("Unknown agent: " ++ name)

/-- `_execute_single_task` with the context it is handed (and leaves
untouched). -/
def execute_single_task (env : Env) (task : Task) (context : Ctx)
    (model_strategy : String) : Except String String × Ctx :=
  (single_task_result env task model_strategy, context)

/-- Inclusion-guarded execution of one step of a named workflow: the
`if <predicate>: result = await step; steps.append((name, result))`
pattern of the workflow bodies.  A step failure propagates. -/
def condStep (cond : Bool) (step_name : String)
    (step : Ctx → Except String String × Ctx)
    (acc : List (String × String)) (context : Ctx) :
    Except String (List (String × String)) × Ctx :=
  if cond then
    match step context with
    | (.ok r, c) => (.ok (acc ++ [(step_name, r)]), c)
    | (.error e, c) => (.error e, c)
  else (.ok acc, context)

/-- `GameDevelopmentWorkflow._execute_game_development_workflow`
(multi_model_workflow.py lines 117-144).  No step is wrapped in a
`try/except`, so a step failure propagates out of the workflow. -/
def execute_game_development_workflow (env : Env) (now : String)
    (tasks : List Task) (context : Ctx) (parallel : Bool)
    (model_strategy : String) : Except String String × Ctx :=
  match condStep (tasks.any (fun task => task.type == some "architecture"))
      "Architecture Planning"
      (fun c => execute_architecture_step env tasks c model_strategy) [] context with
  | (.error e, c) => (.error e, c)
  | (.ok s1, c1) =>
  match condStep (tasks.any (fun task => task.type == some "implementation"))
      "Implementation"
      (fun c => execute_implementation_step env tasks c model_strategy) s1 c1 with
  | (.error e, c) => (.error e, c)
  | (.ok s2, c2) =>
  match condStep (tasks.any (fun task => task.type == some "content"))
      "Content Creation"
      (fun c => execute_content_step env tasks c model_strategy) s2 c2 with
  | (.error e, c) => (.error e, c)
  | (.ok s3, c3) =>
  match condStep (tasks.any (fun task => task.type == some "optimization"))
      "Performance Optimization"
      (fun c => execute_optimization_step env tasks c model_strategy) s3 c3 with
  | (.error e, c) => (.error e, c)
  | (.ok s4, c4) => (.ok (generate_workflow_report now "Game Development" s4), c4)

/-- `PuzzleGenerationWorkflow._execute_puzzle_generation_workflow`
(multi_model_workflow.py lines 150-175). -/
def execute_puzzle_generation_workflow (env : Env) (now : String)
    (tasks : List Task) (context : Ctx) (parallel : Bool)
    (model_strategy : String) : Except String String × Ctx :=
  match condStep true "Theme Analysis"
      (fun c => analyze_puzzle_theme env tasks c) [] context with
  | (.error e, c) => (.error e, c)
  | (.ok s1, c1) =>
  match condStep true "Puzzle Generation"
      (fun c => generate_puzzle_variations env tasks c model_strategy) s1 c1 with
  | (.error e, c) => (.error e, c)
  | (.ok s2, c2) =>
  match condStep (ctxHas c2 "difficulty_adjustment") "Difficulty Balancing"
      (fun c => balance_difficulty env tasks c model_strategy) s2 c2 with
  | (.error e, c) => (.error e, c)
  | (.ok s3, c3) =>
  match condStep (ctxHas c3 "narrative") "Narrative Integration"
      (fun c => integrate_narrative env tasks c model_strategy) s3 c3 with
  | (.error e, c) => (.error e, c)
  | (.ok s4, c4) => (.ok (generate_workflow_report now "Puzzle Generation" s4), c4)

/-- `ContentCreationWorkflow._execute_content_creation_workflow`
(multi_model_workflow.py lines 181-206). -/
def execute_content_creation_workflow (env : Env) (now : String)
    (tasks : List Task) (context : Ctx) (parallel : Bool)
    (model_strategy : String) : Except String String × Ctx :=
  match condStep true "Story Development"
      (fun c => develop_story env tasks c model_strategy) [] context with
  | (.error e, c) => (.error e, c)
  | (.ok s1, c1) =>
  match condStep (ctxHas c1 "characters") "Character Creation"
      (fun c => create_characters env tasks c model_strategy) s1 c1 with
  | (.error e, c) => (.error e, c)
  | (.ok s2, c2) =>
  match condStep true "Scene Writing"
      (fun c => write_scenes env tasks c model_strategy) s2 c2 with
  | (.error e, c) => (.error e, c)
  | (.ok s3, c3) =>
  match condStep (ctxHas c3 "assets") "Asset Generation"
      (fun c => generate_assets env tasks c model_strategy) s3 c3 with
  | (.error e, c) => (.error e, c)
  | (.ok s4, c4) => (.ok (generate_workflow_report now "Content Creation" s4), c4)

/-- `OptimizationWorkflow._execute_optimization_workflow`
(multi_model_workflow.py lines 212-235); all four steps are
unconditional. -/
def execute_optimization_workflow (env : Env) (now : String)
    (tasks : List Task) (context : Ctx) (parallel : Bool)
    (model_strategy : String) : Except String String × Ctx :=
  match condStep true "Performance Analysis"
      (fun c => analyze_performance env tasks c model_strategy) [] context with
  | (.error e, c) => (.error e, c)
  | (.ok s1, c1) =>
  match condStep true "Bottleneck Identification"
      (fun c => identify_bottlenecks env tasks c model_strategy) s1 c1 with
  | (.error e, c) => (.error e, c)
  | (.ok s2, c2) =>
  match condStep true "Optimization Recommendations"
      (fun c => generate_optimizations env tasks c model_strategy) s2 c2 with
  | (.error e, c) => (.error e, c)
  | (.ok s3, c3) =>
  match condStep true "Implementation Strategy"
      (fun c => create_implementation_plan env tasks c model_strategy) s3 c3 with
  | (.error e, c) => (.error e, c)
  | (.ok s4, c4) => (.ok (generate_workflow_report now "Optimization" s4), c4)

/-- Rendering of one gathered result in the parallel branch of the custom
workflow: an exception is formatted as `Error: ...`, a success is kept
verbatim. -/
def collect_result : Except String String → String
  | .ok r => r
  | .error e => "Error: " ++ e

/-- The parallel branch of `CustomWorkflow._execute_custom_workflow`
(multi_model_workflow.py lines 247-258): `asyncio.gather` with
`return_exceptions=True` returns one entry per task, positionally in
input order regardless of completion order (its documented contract),
and every branch reads the same untouched context; the fan-out is
therefore embedded as a positional map.  `i` is the running index used
for the `Task {i+1}` fallback name. -/
def parallel_steps (env : Env) (context : Ctx) (model_strategy : String) :
    Nat → List Task → List (String × String)
  | _, [] => []
  | i, task :: rest =>
    (task.name.getD ("Task " ++ toString (i + 1)),
     collect_result (execute_single_task env task context model_strategy).1)
      :: parallel_steps env context model_strategy (i + 1) rest

/-- The sequential branch of `CustomWorkflow._execute_custom_workflow`
(multi_model_workflow.py lines 259-266): every task runs inside
`try/except`, an exception becoming the step text `Error: ...`. -/
def custom_seq_loop (env : Env) (model_strategy : String) :
    List Task → List (String × String) → Ctx → List (String × String) × Ctx
  | [], acc, context => (acc, context)
  | task :: rest, acc, context =>
    match execute_single_task env task context model_strategy with
    | (.ok result, c) =>
      custom_seq_loop env model_strategy rest
        (acc ++ [(task.name.getD "Task", result)]) c
    | (.error e, c) =>
      custom_seq_loop env model_strategy rest
        (acc ++ [(task.name.getD "Task", "Error: " ++ e)]) c

/-- `CustomWorkflow._execute_custom_workflow` (multi_model_workflow.py
lines 241-269). -/
def execute_custom_workflow (env : Env) (now : String) (tasks : List Task)
    (context : Ctx) (parallel : Bool) (model_strategy : String) :
    Except String String × Ctx :=
  if parallel then
    (.ok (generate_workflow_report now "Custom Workflow"
        (parallel_steps env context model_strategy 0 tasks)), context)
  else
    let r := custom_seq_loop env model_strategy tasks [] context
    (.ok (generate_workflow_report now "Custom Workflow" r.1), r.2)

/-- `WorkflowOrchestrator.execute` (multi_model_workflow.py lines
87-111): dispatch on the workflow type; an unrecognized type raises
`ToolExecutionError` before any step runs. -/
def orchestrator_execute (env : Env) (now : String) (workflow_type : String)
    (tasks : List Task) (context : Ctx) (parallel : Bool)
    (model_strategy : String) : Except String String × Ctx :=
  if workflow_type == "game_development" then
    execute_game_development_workflow env now tasks context parallel model_strategy
  else if workflow_type == "puzzle_generation" then
    execute_puzzle_generation_workflow env now tasks context parallel model_strategy
  else if workflow_type == "content_creation" then
    execute_content_creation_workflow env now tasks context parallel model_strategy
  else if workflow_type == "optimization" then
    execute_optimization_workflow env now tasks context parallel model_strategy
  else if workflow_type == "custom" then
    execute_custom_workflow env now tasks context parallel model_strategy
  else
    (.error ("Unknown workflow type: " ++ workflow_type), context)

/-! ## Concrete environments and tasks used to instantiate the theorems -/

/-- An environment in which no model has a resolvable provider. -/
def envNone : Env := ⟨fun _ => false, fun _ _ _ => .error "unreachable"⟩

/-- An environment in which every provider resolves, `gemini-flash`
simulates a provider failure, and every other model echoes its name. -/
def envC4 : Env :=
  ⟨fun _ => true,
   fun model _ _ =>
     if model == "gemini-flash" then .error "simulated provider failure"
     else .ok ("ok-" ++ model)⟩

/-- An environment in which every provider resolves and every generation
call fails. -/
def envBoom : Env := ⟨fun _ => true, fun _ _ _ => .error "boom"⟩

/-- A task of type `architecture`. -/
def taskArch : Task := { type := some "architecture", prompt := some "design the system" }

/-- A task of type `implementation`. -/
def taskImpl : Task := { type := some "implementation", prompt := some "implement the feature" }

/-- A task of type `content`. -/
def taskContent : Task := { type := some "content", prompt := some "write the lore" }

/-! ## C2: model-selection table -/

/-- C2: `_select_model` realizes the fixed substitution table:
`select("architecture","auto") = "gemini-pro"`,
`select("architecture","cost_optimized") = "gemini-flash"`,
`select("implementation","performance_optimized") = "gemini-pro"`; any
agent type outside the base table falls back to the base model
`gemini-flash` (to which the strategy substitutions then apply); and
models unmapped by a strategy's substitution table pass through that
strategy unchanged. -/
theorem c2_select_model_table :
    select_model "architecture" "auto" = "gemini-pro" ∧
    select_model "architecture" "cost_optimized" = "gemini-flash" ∧
    select_model "implementation" "performance_optimized" = "gemini-pro" ∧
    (∀ agent_type strategy, List.lookup agent_type model_map = none →
      select_model agent_type strategy =
        (if strategy == "performance_optimized" then "gemini-pro" else "gemini-flash")) ∧
    select_model "optimization" "cost_optimized" = "ollama" ∧
    select_model "narrative" "performance_optimized" = "claude-haiku" ∧
    select_model "narrative" "balanced" = "claude-haiku" ∧
    select_model "implementation" "cost_optimized" = "gemini-flash" ∧
    select_model "implementation" "balanced" = "gemini-flash" := by
  refine ⟨rfl, rfl, rfl, ?_, rfl, rfl, rfl, rfl, rfl⟩
  intro agent_type strategy h
  by_cases hc : strategy = "cost_optimized"
  · subst hc; simp [select_model, h]
  · by_cases hp : strategy = "performance_optimized"
    · subst hp; simp [select_model, h]
    · by_cases hb : strategy = "balanced"
      · subst hb; simp [select_model, h]
      · simp [select_model, h, hc, hp, hb]

/-- Witness for C2: the fallback conjunct applied to an agent type
outside the base table. -/
theorem c2_witness :
    List.lookup "story_weaver" model_map = none ∧
    select_model "story_weaver" "auto" = "gemini-flash" :=
  ⟨rfl, c2_select_model_table.2.2.2.1 "story_weaver" "auto" rfl⟩

/-! ## C7: unknown workflow type -/

/-- C7: for a workflow type outside the five recognized ones,
`WorkflowOrchestrator.execute` fails with the unknown-workflow-type error
before any step runs, leaving the context untouched and producing no
report. -/
theorem c7_unknown_workflow_type :
    ∀ env now workflow_type tasks context parallel model_strategy,
      workflow_type ≠ "game_development" →
      workflow_type ≠ "puzzle_generation" →
      workflow_type ≠ "content_creation" →
      workflow_type ≠ "optimization" →
      workflow_type ≠ "custom" →
      orchestrator_execute env now workflow_type tasks context parallel model_strategy =
        (.error ("Unknown workflow type: " ++ workflow_type), context) := by
  intro env now wt tasks context parallel ms h1 h2 h3 h4 h5
  simp [orchestrator_execute, h1, h2, h3, h4, h5]

/-- Witness for C7 at the concrete workflow type `nonsense`. -/
theorem c7_witness :
    orchestrator_execute envNone "TS" "nonsense" [] [] false "auto" =
      (.error "Unknown workflow type: nonsense", []) :=
  c7_unknown_workflow_type envNone "TS" "nonsense" [] [] false "auto"
    (by decide) (by decide) (by decide) (by decide) (by decide)

/-! ## C5: unconditional success status in the report -/

/-- C5: for every workflow name and every step list (error texts
included), the rendered report contains the status line literal
`- **Status:** Completed Successfully`; the status is independent of the
step results. -/
theorem c5_status_literal_unconditional :
    ∀ now workflow_name steps, ∃ pre post,
      generate_workflow_report now workflow_name steps =
        pre ++ ("- **Status:** Completed Successfully" ++ post) := by
  intro now wn steps
  refine ⟨"# " ++ wn ++ " Workflow Report\n\n" ++
      ("**Generated:** " ++ now ++ "\n") ++
      ("**Total Steps:** " ++ toString steps.length ++ "\n\n") ++
      reportSteps steps 1 ++
      "## Workflow Summary\n\n" ++
      ("- **Workflow Type:** " ++ wn ++ "\n") ++
      ("- **Steps Completed:** " ++ toString steps.length ++ "\n"),
    "\n\n" ++ "## Recommendations\n\n" ++
      "1. Review each step\x27s output for quality and completeness\n" ++
      "2. Implement recommendations in order of priority\n" ++
      "3. Test changes thoroughly before deployment\n" ++
      "4. Monitor performance and user feedback\n\n", ?_⟩
  simp only [generate_workflow_report, get_timestamp]
  rw [show ("- **Status:** Completed Successfully\n\n" : String) =
      "- **Status:** Completed Successfully" ++ "\n\n" from rfl]
  simp only [String.append_assoc]

/-! ## C8: report rendering is a pure function of its inputs and the
single timestamp field -/



/-- C8: the rendered report is determined by the workflow name, the step
list and the one wall-clock reading: for fixed name and steps there are
`pre`/`post` (independent of the clock) with
`report now = pre ++ now ++ post` for every clock reading, so renders
differ at most in the single timestamp field, and two renders from equal
inputs (clock reading included) are byte-identical. -/
theorem c8_report_timestamp_decomposition :
    ∀ workflow_name steps now1 now2, ∃ pre post,
      generate_workflow_report now1 workflow_name steps = pre ++ (now1 ++ post) ∧
      generate_workflow_report now2 workflow_name steps = pre ++ (now2 ++ post) ∧
      (now1 = now2 →
        generate_workflow_report now1 workflow_name steps =
          generate_workflow_report now2 workflow_name steps) := by
  intro wn steps n1 n2
  refine ⟨"# " ++ wn ++ " Workflow Report\n\n" ++ "**Generated:** ",
    "\n" ++ ("**Total Steps:** " ++ toString steps.length ++ "\n\n") ++
      reportSteps steps 1 ++
      "## Workflow Summary\n\n" ++
      ("- **Workflow Type:** " ++ wn ++ "\n") ++
      ("- **Steps Completed:** " ++ toString steps.length ++ "\n") ++
      "- **Status:** Completed Successfully\n\n" ++
      "## Recommendations\n\n" ++
      "1. Review each step\x27s output for quality and completeness\n" ++
      "2. Implement recommendations in order of priority\n" ++
      "3. Test changes thoroughly before deployment\n" ++
      "4. Monitor performance and user feedback\n\n", ?_, ?_, fun h => by rw [h]⟩
  · simp only [generate_workflow_report, get_timestamp, String.append_assoc]
  · simp only [generate_workflow_report, get_timestamp, String.append_assoc]

/-- Witness for C8: two renders from the same inputs (clock reading
included) are byte-identical, at a concrete input. -/
theorem c8_witness :
    generate_workflow_report "2025-01-01 00:00:00" "Demo" [("Step", "text")] =
      generate_workflow_report "2025-01-01 00:00:00" "Demo" [("Step", "text")] := by
  obtain ⟨pre, post, _, _, h3⟩ :=
    c8_report_timestamp_decomposition "Demo" [("Step", "text")]
      "2025-01-01 00:00:00" "2025-01-01 00:00:00"
  exact h3 rfl

/-! ## Custom-workflow characterization lemmas (shared by C1, C3, C4) -/

/-- The parallel fan-out produces exactly one step per task. -/
theorem parallel_steps_length (env : Env) (context : Ctx) (ms : String) :
    ∀ i tasks, (parallel_steps env context ms i tasks).length = tasks.length := by
  intro i tasks
  induction tasks generalizing i with
  | nil => rfl
  | cons t ts ih => simp [parallel_steps, ih]

/-- Entry `i` of the parallel fan-out is the rendering of input task `i`
(positional correspondence, independent of any completion order). -/
theorem parallel_steps_getElem (env : Env) (context : Ctx) (ms : String) :
    ∀ tasks (k i : Nat),
      (parallel_steps env context ms k tasks)[i]? =
        (tasks[i]?).map (fun task =>
          (task.name.getD ("Task " ++ toString (k + i + 1)),
           collect_result (execute_single_task env task context ms).1)) := by
  intro tasks
  induction tasks with
  | nil => intro k i; simp [parallel_steps]
  | cons t ts ih =>
    intro k i
    cases i with
    | zero => simp [parallel_steps]
    | succ n =>
      have harith : k + 1 + n + 1 = k + (n + 1) + 1 := by omega
      simpa [parallel_steps, harith] using ih (k + 1) n

/-- The sequential custom loop never throws: it returns the accumulated
steps, one per task, with the context it was given. -/
theorem custom_seq_loop_closed (env : Env) (ms : String) :
    ∀ tasks acc context, ∃ steps, steps.length = tasks.length ∧
      custom_seq_loop env ms tasks acc context = (acc ++ steps, context) := by
  intro tasks
  induction tasks with
  | nil => intro acc context; exact ⟨[], rfl, by simp [custom_seq_loop]⟩
  | cons t ts ih =>
    intro acc context
    cases h : single_task_result env t ms with
    | ok r =>
      obtain ⟨steps, hlen, heq⟩ := ih (acc ++ [(t.name.getD "Task", r)]) context
      exact ⟨(t.name.getD "Task", r) :: steps, by simp [hlen],
        by simp [custom_seq_loop, execute_single_task, h, heq]⟩
    | error e =>
      obtain ⟨steps, hlen, heq⟩ := ih (acc ++ [(t.name.getD "Task", "Error: " ++ e)]) context
      exact ⟨(t.name.getD "Task", "Error: " ++ e) :: steps, by simp [hlen],
        by simp [custom_seq_loop, execute_single_task, h, heq]⟩

/-! ## C1: per-step failure isolation -/

/-- C1 counterexample: in a `game_development` run whose architecture
agent call fails, the failure is NOT caught at the step boundary; the
invocation aborts with the error and returns no report. -/
theorem c1_counterexample :
    orchestrator_execute envNone "TS" "game_development" [taskArch] [] false "auto" =
      (.error "Failed to execute with model gemini-pro: Model gemini-pro not available",
       []) := by
  rfl

/-- C1 as amended: per-step catching holds for the custom workflow only —
a custom run (sequential or parallel) always returns a rendered report
with one step per task, whatever failures occur; in the
`game_development` workflow a failing architecture step propagates its
error and aborts the run with no report. -/
theorem c1_amended_error_isolation :
    (∀ (env : Env) now tasks context parallel model_strategy, ∃ steps,
        steps.length = tasks.length ∧
        orchestrator_execute env now "custom" tasks context parallel model_strategy =
          (.ok (generate_workflow_report now "Custom Workflow" steps), context)) ∧
    (∀ (env : Env) now tasks context parallel model_strategy e,
        tasks.any (fun task => task.type == some "architecture") = true →
        (execute_architecture_step env tasks context model_strategy).1 = .error e →
        orchestrator_execute env now "game_development" tasks context parallel
            model_strategy =
          (.error e, context)) := by
  constructor
  · intro env now tasks context parallel ms
    show ∃ steps, _ ∧ execute_custom_workflow env now tasks context parallel ms = _
    cases parallel with
    | true =>
      exact ⟨parallel_steps env context ms 0 tasks,
        parallel_steps_length env context ms 0 tasks, rfl⟩
    | false =>
      obtain ⟨steps, hlen, heq⟩ := custom_seq_loop_closed env ms tasks [] context
      exact ⟨steps, hlen, by simp [execute_custom_workflow, heq]⟩
  · intro env now tasks context parallel ms e hany herr
    cases hE : execute_architecture_step env tasks context ms with
    | mk r c =>
      have hc : c = context := by
        have h2 : (execute_architecture_step env tasks context ms).2 = context := rfl
        rw [hE] at h2; exact h2
      have hr : r = .error e := by rw [hE] at herr; exact herr
      rw [hr, hc] at hE
      show execute_game_development_workflow env now tasks context parallel ms = _
      simp [execute_game_development_workflow, condStep, hany, hE]

/-- Witness for C1: the amended propagation conjunct applied to a
concrete failing `game_development` run. -/
theorem c1_witness :
    orchestrator_execute envNone "TS2" "game_development" [taskArch] [] false "auto" =
      (.error "Failed to execute with model gemini-pro: Model gemini-pro not available",
       []) :=
  c1_amended_error_isolation.2 envNone "TS2" [taskArch] [] false "auto"
    "Failed to execute with model gemini-pro: Model gemini-pro not available"
    rfl rfl

/-! ## C3: parallel custom workflow, positional correspondence -/

/-- C3: a parallel custom run always returns a rendered report; failures
are collected, not propagated; the step list has one entry per task and
its `i`-th entry is the rendering of the `i`-th input task (name fallback
`Task i+1`, error text for a failure), independent of completion order
(embedded via the ordered-results contract of `asyncio.gather`). -/
theorem c3_parallel_positional :
    ∀ (env : Env) now context model_strategy tasks,
      orchestrator_execute env now "custom" tasks context true model_strategy =
        (.ok (generate_workflow_report now "Custom Workflow"
            (parallel_steps env context model_strategy 0 tasks)), context) ∧
      (parallel_steps env context model_strategy 0 tasks).length = tasks.length ∧
      (∀ i : Nat,
        (parallel_steps env context model_strategy 0 tasks)[i]? =
          (tasks[i]?).map (fun task =>
            (task.name.getD ("Task " ++ toString (i + 1)),
             collect_result (execute_single_task env task context model_strategy).1))) := by
  intro env now context ms tasks
  refine ⟨rfl, parallel_steps_length env context ms 0 tasks, ?_⟩
  intro i
  simpa using parallel_steps_getElem env context ms tasks 0 i

/-! ## C4: sequential isolation on a concrete three-task run -/

/-- C4: a three-task sequential custom workflow whose middle task's agent
call fails still yields a three-step report; step 2's text starts with
`Error:` and steps 1 and 3 carry the successful texts (prefix checks
expressed on the character lists). -/
theorem c4_sequential_isolation :
    orchestrator_execute envC4 "TS" "custom" [taskArch, taskImpl, taskContent] []
        false "auto" =
      (.ok (generate_workflow_report "TS" "Custom Workflow"
         [("Task", "ok-gemini-pro"),
          ("Task", "Error: Failed to execute with model gemini-flash: simulated provider failure"),
          ("Task", "ok-claude-haiku")]), []) ∧
    "Error:".data.isPrefixOf
      "Error: Failed to execute with model gemini-flash: simulated provider failure".data
        = true ∧
    "Error:".data.isPrefixOf "ok-gemini-pro".data = false ∧
    "Error:".data.isPrefixOf "ok-claude-haiku".data = false :=
  ⟨by rfl, by decide, by decide, by decide⟩

/-! ## C6: consensus workflow error handling -/

/-- The consensus collection loop returns no responses when none of the
pending models resolves to a provider. -/
theorem consensus_loop_all_unresolvable (env : Env) (prompt : String)
    (files : List String) (models_all : List String) (tm : String) :
    ∀ pending, (∀ m ∈ pending, env.resolve m = false) →
      consensus_loop env prompt files models_all tm pending = .ok [] := by
  intro pending
  induction pending with
  | nil => intro _; rfl
  | cons m rest ih =>
    intro h
    have hm : env.resolve m = false := h m (by simp)
    simp only [consensus_loop, hm, Bool.false_eq_true, if_false]
    exact ih (fun m' hm' => h m' (by simp [hm']))

/-- C6 counterexample: with a single model whose provider resolves but
whose generation call fails, the consensus workflow does NOT return the
synthesis boilerplate — the failure propagates to the outer handler and
the whole invocation fails. -/
theorem c6_counterexample :
    execute_consensus_workflow envBoom "p" [] ["gemini-pro"] "high" =
      .error "Consensus workflow failed: boom" := by
  rfl

/-- C6 as amended: a model with no resolvable provider is silently
skipped (the loop continues as if it were absent), and when every model
is unresolvable the workflow still returns the static synthesis
boilerplate with zero per-model sections; but when a resolved model's
generation fails, the whole consensus invocation fails (see the
counterexample) rather than returning the boilerplate. -/
theorem c6_amended_consensus :
    (∀ (env : Env) prompt files models_all thinking_mode model rest,
        env.resolve model = false →
        consensus_loop env prompt files models_all thinking_mode (model :: rest) =
          consensus_loop env prompt files models_all thinking_mode rest) ∧
    (∀ (env : Env) prompt files models thinking_mode,
        (∀ m ∈ models, env.resolve m = false) →
        execute_consensus_workflow env prompt files models thinking_mode =
          .ok (analyze_consensus [])) ∧
    analyze_consensus [] =
      "## CONSENSUS ANALYSIS\n\n## SYNTHESIS AND RECOMMENDATIONS\n\nBased on the multiple model analyses, here are the key consensus points:\n\n1. **Common Recommendations**\n2. **Areas of Agreement**\n3. **Divergent Opinions**\n4. **Final Recommendations**\n\n" := by
  refine ⟨?_, ?_, by rfl⟩
  · intro env p f ma tm m rest h
    simp [consensus_loop, h]
  · intro env p f models tm h
    simp [execute_consensus_workflow,
      consensus_loop_all_unresolvable env p f models tm models h]

/-- Witness for C6: the amended conjuncts applied to concrete model
lists under the no-provider environment. -/
theorem c6_witness :
    consensus_loop envNone "p" [] ["gemini-pro", "x"] "high" ["gemini-pro", "x"] =
      consensus_loop envNone "p" [] ["gemini-pro", "x"] "high" ["x"] ∧
    execute_consensus_workflow envNone "p" [] ["gemini-pro", "x"] "high" =
      .ok (analyze_consensus []) :=
  ⟨c6_amended_consensus.1 envNone "p" [] ["gemini-pro", "x"] "high" "gemini-pro" ["x"] rfl,
   c6_amended_consensus.2.1 envNone "p" [] ["gemini-pro", "x"] "high" (fun m _ => rfl)⟩

/-! ## C9: the shared context is never mutated -/

/-- A guarded step whose body leaves the context unchanged leaves the
context unchanged. -/
theorem condStep_snd2 (b : Bool) (nm : String)
    (step : Ctx → Except String String × Ctx) (acc : List (String × String))
    (ctx : Ctx) (h : (step ctx).2 = ctx) :
    (condStep b nm step acc ctx).2 = ctx := by
  unfold condStep
  split
  · cases hs : step ctx with
    | mk r c => rw [hs] at h; cases r <;> exact h
  · rfl

/-- Extraction form of `condStep_snd2` for a known result pair. -/
theorem condStep_out_snd {b : Bool} {nm : String}
    {step : Ctx → Except String String × Ctx} {acc : List (String × String)}
    {ctx : Ctx} {r : Except String (List (String × String))} {c : Ctx}
    (heq : condStep b nm step acc ctx = (r, c)) (h : (step ctx).2 = ctx) :
    c = ctx := by
  have h2 := condStep_snd2 b nm step acc ctx h
  rw [heq] at h2
  exact h2

/-- The game-development workflow returns the context it was given. -/
theorem gamedev_snd (env : Env) (now : String) (tasks : List Task)
    (context : Ctx) (parallel : Bool) (ms : String) :
    (execute_game_development_workflow env now tasks context parallel ms).2 = context := by
  unfold execute_game_development_workflow
  split
  · rename_i e c heq; exact condStep_out_snd heq rfl
  · rename_i s1 c1 heq
    have hx := condStep_out_snd heq rfl
    subst hx
    split
    · rename_i e c heq2; exact condStep_out_snd heq2 rfl
    · rename_i s2 c2 heq2
      have hx2 := condStep_out_snd heq2 rfl
      subst hx2
      split
      · rename_i e c heq3; exact condStep_out_snd heq3 rfl
      · rename_i s3 c3 heq3
        have hx3 := condStep_out_snd heq3 rfl
        subst hx3
        split
        · rename_i e c heq4; exact condStep_out_snd heq4 rfl
        · rename_i s4 c4 heq4; exact condStep_out_snd heq4 rfl

/-- The puzzle-generation workflow returns the context it was given. -/
theorem puzzle_snd (env : Env) (now : String) (tasks : List Task)
    (context : Ctx) (parallel : Bool) (ms : String) :
    (execute_puzzle_generation_workflow env now tasks context parallel ms).2 = context := by
  unfold execute_puzzle_generation_workflow
  split
  · rename_i e c heq; exact condStep_out_snd heq rfl
  · rename_i s1 c1 heq
    have hx := condStep_out_snd heq rfl
    subst hx
    split
    · rename_i e c heq2; exact condStep_out_snd heq2 rfl
    · rename_i s2 c2 heq2
      have hx2 := condStep_out_snd heq2 rfl
      subst hx2
      split
      · rename_i e c heq3; exact condStep_out_snd heq3 rfl
      · rename_i s3 c3 heq3
        have hx3 := condStep_out_snd heq3 rfl
        subst hx3
        split
        · rename_i e c heq4; exact condStep_out_snd heq4 rfl
        · rename_i s4 c4 heq4; exact condStep_out_snd heq4 rfl

/-- The content-creation workflow returns the context it was given. -/
theorem content_snd (env : Env) (now : String) (tasks : List Task)
    (context : Ctx) (parallel : Bool) (ms : String) :
    (execute_content_creation_workflow env now tasks context parallel ms).2 = context := by
  unfold execute_content_creation_workflow
  split
  · rename_i e c heq; exact condStep_out_snd heq rfl
  · rename_i s1 c1 heq
    have hx := condStep_out_snd heq rfl
    subst hx
    split
    · rename_i e c heq2; exact condStep_out_snd heq2 rfl
    · rename_i s2 c2 heq2
      have hx2 := condStep_out_snd heq2 rfl
      subst hx2
      split
      · rename_i e c heq3; exact condStep_out_snd heq3 rfl
      · rename_i s3 c3 heq3
        have hx3 := condStep_out_snd heq3 rfl
        subst hx3
        split
        · rename_i e c heq4; exact condStep_out_snd heq4 rfl
        · rename_i s4 c4 heq4; exact condStep_out_snd heq4 rfl

/-- The optimization workflow returns the context it was given. -/
theorem optimization_snd (env : Env) (now : String) (tasks : List Task)
    (context : Ctx) (parallel : Bool) (ms : String) :
    (execute_optimization_workflow env now tasks context parallel ms).2 = context := by
  unfold execute_optimization_workflow
  split
  · rename_i e c heq; exact condStep_out_snd heq rfl
  · rename_i s1 c1 heq
    have hx := condStep_out_snd heq rfl
    subst hx
    split
    · rename_i e c heq2; exact condStep_out_snd heq2 rfl
    · rename_i s2 c2 heq2
      have hx2 := condStep_out_snd heq2 rfl
      subst hx2
      split
      · rename_i e c heq3; exact condStep_out_snd heq3 rfl
      · rename_i s3 c3 heq3
        have hx3 := condStep_out_snd heq3 rfl
        subst hx3
        split
        · rename_i e c heq4; exact condStep_out_snd heq4 rfl
        · rename_i s4 c4 heq4; exact condStep_out_snd heq4 rfl

/-- The sequential custom loop returns the context it was given. -/
theorem custom_seq_loop_snd (env : Env) (ms : String) (tasks : List Task)
    (acc : List (String × String)) (context : Ctx) :
    (custom_seq_loop env ms tasks acc context).2 = context := by
  obtain ⟨steps, _, heq⟩ := custom_seq_loop_closed env ms tasks acc context
  rw [heq]

/-- The custom workflow returns the context it was given. -/
theorem custom_snd (env : Env) (now : String) (tasks : List Task)
    (context : Ctx) (parallel : Bool) (ms : String) :
    (execute_custom_workflow env now tasks context parallel ms).2 = context := by
  cases parallel with
  | true => rfl
  | false => exact custom_seq_loop_snd env ms tasks [] context

/-- C9: the shared context mapping passed to a run is identical before
and after the run, for every workflow type and execution mode: no step
writes to it (each embedded step returns it unchanged, mirroring the
absence of any context write in the source). -/
theorem c9_context_never_mutated :
    ∀ (env : Env) now workflow_type tasks context parallel model_strategy,
      (orchestrator_execute env now workflow_type tasks context parallel
          model_strategy).2 = context := by
  intro env now wt tasks context parallel ms
  unfold orchestrator_execute
  split
  · exact gamedev_snd env now tasks context parallel ms
  · split
    · exact puzzle_snd env now tasks context parallel ms
    · split
      · exact content_snd env now tasks context parallel ms
      · split
        · exact optimization_snd env now tasks context parallel ms
        · split
          · exact custom_snd env now tasks context parallel ms
          · rfl

/-! ## C10: first-match step selection, except the implementation step -/

/-- Appending one element to the tail of `String.intercalate.go` appends
one separator and the element. -/
theorem intercalate_go_append (s : String) :
    ∀ as acc y, String.intercalate.go acc s (as ++ [y]) =
      String.intercalate.go acc s as ++ s ++ y := by
  intro as
  induction as with
  | nil => intro acc y; rfl
  | cons a as2 ih =>
    intro acc y
    simp only [List.cons_append, String.intercalate.go]
    exact ih (acc ++ s ++ a) y

/-- `String.intercalate` over a nonempty list with one appended element. -/
theorem intercalate_append_last (s y x : String) (xs : List String) :
    String.intercalate s ((x :: xs) ++ [y]) =
      String.intercalate s (x :: xs) ++ s ++ y := by
  simp only [List.cons_append, String.intercalate]
  exact intercalate_go_append s xs x y

/-- The implementation loop concatenates over list append when both
halves succeed. -/
theorem impl_loop_append (env : Env) (ms : String) :
    ∀ l₁ l₂ r₁ r₂, impl_loop env ms l₁ = .ok r₁ → impl_loop env ms l₂ = .ok r₂ →
      impl_loop env ms (l₁ ++ l₂) = .ok (r₁ ++ r₂) := by
  intro l₁
  induction l₁ with
  | nil =>
    intro l₂ r₁ r₂ h1 h2
    simp only [impl_loop] at h1
    cases h1
    simpa using h2
  | cons t ts ih =>
    intro l₂ r₁ r₂ h1 h2
    cases hx : impl_task_exec env ms t with
    | error e => simp [impl_loop, hx] at h1
    | ok r =>
      cases hy : impl_loop env ms ts with
      | error e => simp [impl_loop, hx, hy] at h1
      | ok rs =>
        simp only [impl_loop, hx, hy] at h1
        cases h1
        show impl_loop env ms (t :: (ts ++ l₂)) = Except.ok (r :: (rs ++ r₂))
        simp only [impl_loop, hx, ih l₂ rs r₂ hy h2]

/-- The implementation loop returns one result per input task. -/
theorem impl_loop_length (env : Env) (ms : String) :
    ∀ l rs, impl_loop env ms l = .ok rs → rs.length = l.length := by
  intro l
  induction l with
  | nil => intro rs h; simp only [impl_loop] at h; cases h; rfl
  | cons t ts ih =>
    intro rs h
    cases hx : impl_task_exec env ms t with
    | error e => simp [impl_loop, hx] at h
    | ok r =>
      cases hy : impl_loop env ms ts with
      | error e => simp [impl_loop, hx, hy] at h
      | ok rs2 =>
        simp only [impl_loop, hx, hy] at h
        cases h
        simp [ih rs2 hy]

/-- C10: in the four named workflows, every step's result is a function
of the FIRST task whose type matches that step (two task lists with the
same first match give the same step result, so later tasks of the same
type are ignored) — except the implementation step of game_development,
which executes every task of type `implementation` in list order and
joins the results with blank lines: appending one more succeeding
implementation task appends `"\n\n" ++ result` to a nonempty joined
result (and is the sole result when the list had no implementation
task). -/
theorem c10_step_task_selection :
    (∀ (env : Env) (ctx : Ctx) strat ts1 ts2,
        ts1.find? (fun task => task.type == some "architecture") =
          ts2.find? (fun task => task.type == some "architecture") →
        execute_architecture_step env ts1 ctx strat =
          execute_architecture_step env ts2 ctx strat) ∧
    (∀ (env : Env) (ctx : Ctx) strat ts1 ts2,
        ts1.find? (fun task => task.type == some "content") =
          ts2.find? (fun task => task.type == some "content") →
        execute_content_step env ts1 ctx strat =
          execute_content_step env ts2 ctx strat) ∧
    (∀ (env : Env) (ctx : Ctx) strat ts1 ts2,
        ts1.find? (fun task => task.type == some "optimization") =
          ts2.find? (fun task => task.type == some "optimization") →
        execute_optimization_step env ts1 ctx strat =
          execute_optimization_step env ts2 ctx strat) ∧
    (∀ (env : Env) (ctx : Ctx) ts1 ts2,
        ts1.find? (fun task => task.type == some "theme_analysis") =
          ts2.find? (fun task => task.type == some "theme_analysis") →
        analyze_puzzle_theme env ts1 ctx = analyze_puzzle_theme env ts2 ctx) ∧
    (∀ (env : Env) (ctx : Ctx) strat ts1 ts2,
        ts1.find? (fun task => task.type == some "procedural_generation") =
          ts2.find? (fun task => task.type == some "procedural_generation") →
        generate_puzzle_variations env ts1 ctx strat =
          generate_puzzle_variations env ts2 ctx strat) ∧
    (∀ (env : Env) (ctx : Ctx) strat ts1 ts2,
        ts1.find? (fun task => task.type == some "difficulty_balancing") =
          ts2.find? (fun task => task.type == some "difficulty_balancing") →
        balance_difficulty env ts1 ctx strat = balance_difficulty env ts2 ctx strat) ∧
    (∀ (env : Env) (ctx : Ctx) strat ts1 ts2,
        ts1.find? (fun task => task.type == some "narrative_integration") =
          ts2.find? (fun task => task.type == some "narrative_integration") →
        integrate_narrative env ts1 ctx strat = integrate_narrative env ts2 ctx strat) ∧
    (∀ (env : Env) (ctx : Ctx) strat ts1 ts2,
        ts1.find? (fun task => task.type == some "story_development") =
          ts2.find? (fun task => task.type == some "story_development") →
        develop_story env ts1 ctx strat = develop_story env ts2 ctx strat) ∧
    (∀ (env : Env) (ctx : Ctx) strat ts1 ts2,
        ts1.find? (fun task => task.type == some "character_creation") =
          ts2.find? (fun task => task.type == some "character_creation") →
        create_characters env ts1 ctx strat = create_characters env ts2 ctx strat) ∧
    (∀ (env : Env) (ctx : Ctx) strat ts1 ts2,
        ts1.find? (fun task => task.type == some "scene_writing") =
          ts2.find? (fun task => task.type == some "scene_writing") →
        write_scenes env ts1 ctx strat = write_scenes env ts2 ctx strat) ∧
    (∀ (env : Env) (ctx : Ctx) strat ts1 ts2,
        ts1.find? (fun task => task.type == some "asset_generation") =
          ts2.find? (fun task => task.type == some "asset_generation") →
        generate_assets env ts1 ctx strat = generate_assets env ts2 ctx strat) ∧
    (∀ (env : Env) (ctx : Ctx) strat ts1 ts2,
        ts1.find? (fun task => task.type == some "performance_analysis") =
          ts2.find? (fun task => task.type == some "performance_analysis") →
        analyze_performance env ts1 ctx strat = analyze_performance env ts2 ctx strat) ∧
    (∀ (env : Env) (ctx : Ctx) strat ts1 ts2,
        ts1.find? (fun task => task.type == some "bottleneck_identification") =
          ts2.find? (fun task => task.type == some "bottleneck_identification") →
        identify_bottlenecks env ts1 ctx strat = identify_bottlenecks env ts2 ctx strat) ∧
    (∀ (env : Env) (ctx : Ctx) strat ts1 ts2,
        ts1.find? (fun task => task.type == some "optimization_recommendations") =
          ts2.find? (fun task => task.type == some "optimization_recommendations") →
        generate_optimizations env ts1 ctx strat =
          generate_optimizations env ts2 ctx strat) ∧
    (∀ (env : Env) (ctx : Ctx) strat ts1 ts2,
        ts1.find? (fun task => task.type == some "implementation_plan") =
          ts2.find? (fun task => task.type == some "implementation_plan") →
        create_implementation_plan env ts1 ctx strat =
          create_implementation_plan env ts2 ctx strat) ∧
    (∀ (env : Env) (ctx : Ctx) strat ts t s r,
        t.type = some "implementation" →
        (execute_implementation_step env ts ctx strat).1 = .ok s →
        impl_task_exec env strat t = .ok r →
        (execute_implementation_step env (ts ++ [t]) ctx strat).1 =
          .ok (if ts.any (fun task => task.type == some "implementation")
               then s ++ "\n\n" ++ r else r)) := by
  refine ⟨?_, ?_, ?_, ?_, ?_, ?_, ?_, ?_, ?_, ?_, ?_, ?_, ?_, ?_, ?_, ?_⟩
  · intro env ctx strat ts1 ts2 h; simp only [execute_architecture_step]; rw [h]
  · intro env ctx strat ts1 ts2 h; simp only [execute_content_step]; rw [h]
  · intro env ctx strat ts1 ts2 h; simp only [execute_optimization_step]; rw [h]
  · intro env ctx ts1 ts2 h; simp only [analyze_puzzle_theme]; rw [h]
  · intro env ctx strat ts1 ts2 h; simp only [generate_puzzle_variations]; rw [h]
  · intro env ctx strat ts1 ts2 h; simp only [balance_difficulty]; rw [h]
  · intro env ctx strat ts1 ts2 h; simp only [integrate_narrative]; rw [h]
  · intro env ctx strat ts1 ts2 h; simp only [develop_story]; rw [h]
  · intro env ctx strat ts1 ts2 h; simp only [create_characters]; rw [h]
  · intro env ctx strat ts1 ts2 h; simp only [write_scenes]; rw [h]
  · intro env ctx strat ts1 ts2 h; simp only [generate_assets]; rw [h]
  · intro env ctx strat ts1 ts2 h; simp only [analyze_performance]; rw [h]
  · intro env ctx strat ts1 ts2 h; simp only [identify_bottlenecks]; rw [h]
  · intro env ctx strat ts1 ts2 h; simp only [generate_optimizations]; rw [h]
  · intro env ctx strat ts1 ts2 h; simp only [create_implementation_plan]; rw [h]
  · intro env ctx strat ts t s r ht hs hr
    have hs' : (impl_loop env strat
        (ts.filter (fun task => task.type == some "implementation"))).map
        (String.intercalate "\n\n") = .ok s := hs
    cases hy : impl_loop env strat
        (ts.filter (fun task => task.type == some "implementation")) with
    | error e => rw [hy] at hs'; simp [Except.map] at hs'
    | ok rs =>
      rw [hy] at hs'
      simp only [Except.map] at hs'
      cases hs'
      have hpt : (t.type == some "implementation") = true := by simp [ht]
      have hfil : (ts ++ [t]).filter (fun task => task.type == some "implementation") =
          ts.filter (fun task => task.type == some "implementation") ++ [t] := by
        simp [List.filter_append, hpt]
      have hone : impl_loop env strat [t] = .ok [r] := by simp [impl_loop, hr]
      have hall := impl_loop_append env strat _ [t] rs [r] hy hone
      show (impl_loop env strat
          ((ts ++ [t]).filter (fun task => task.type == some "implementation"))).map
          (String.intercalate "\n\n") = _
      rw [hfil, hall]
      cases rs with
      | nil =>
        have hlen := impl_loop_length env strat _ _ hy
        have hnil : ts.filter (fun task => task.type == some "implementation") = [] :=
          List.eq_nil_of_length_eq_zero hlen.symm
        have hany : ts.any (fun task => task.type == some "implementation") = false := by
          rw [List.any_eq_false]
          exact fun x hx => by simpa using (List.filter_eq_nil_iff.mp hnil) x hx
        simp [hany, Except.map, String.intercalate, String.intercalate.go]
      | cons x xs =>
        have hpos : 0 < (ts.filter (fun task => task.type == some "implementation")).length := by
          have hlen := impl_loop_length env strat _ _ hy
          simp only [List.length_cons] at hlen
          omega
        have hany : ts.any (fun task => task.type == some "implementation") = true := by
          obtain ⟨a, ha⟩ := List.exists_mem_of_length_pos hpos
          have hmem := List.mem_filter.mp ha
          exact List.any_eq_true.mpr ⟨a, hmem.1, hmem.2⟩
        simp only [hany, if_true, Except.map]
        rw [intercalate_append_last]

/-- Provider environment in which every model resolves and echoes its
name. -/
def envOk : Env := ⟨fun _ => true, fun model _ _ => .ok ("ok-" ++ model)⟩

/-- A second task of type `implementation`. -/
def taskImpl2 : Task := { type := some "implementation", prompt := some "second feature" }

/-- A duplicate later task of type `architecture`. -/
def taskArchDup : Task := { type := some "architecture", prompt := some "later duplicate" }

/-- Witness for C10: the architecture step ignores a later duplicate
architecture task, while the implementation step executes an appended
second implementation task and joins the results with a blank line. -/
theorem c10_witness :
    execute_architecture_step envOk [taskArch] [] "auto" =
      execute_architecture_step envOk [taskArch, taskArchDup] [] "auto" ∧
    (execute_implementation_step envOk [taskImpl, taskImpl2] [] "auto").1 =
      .ok ("ok-gemini-flash" ++ "\n\n" ++ "ok-gemini-flash") :=
  ⟨c10_step_task_selection.1 envOk [] "auto" [taskArch] [taskArch, taskArchDup] rfl,
   c10_step_task_selection.2.2.2.2.2.2.2.2.2.2.2.2.2.2.2 envOk [] "auto" [taskImpl]
     taskImpl2 "ok-gemini-flash" "ok-gemini-flash" rfl rfl rfl⟩

end PalMcp
